import Mathlib

/-!
Verification of the `ptp4u` send worker (`ptp4u/server/worker.go`).

The worker dequeues subscription-client jobs from a channel, crafts the
corresponding PTP message (Sync, Announce, DelayResp), sends it over one of
two UDP sockets (event / general), and on the Sync path retrieves the true
transmit timestamp to build and send a Follow-Up message.

The embedding makes the external, fallible collaborators (serialization,
sendto syscalls, timestamp retrieval) explicit as per-job environment data,
and records every observable action (datagrams sent, stats-sink calls) in a
trace of effects.
-/

/-- PTP message types relevant to the worker
(`ptp.MessageSync`, `ptp.MessageFollowUp`, `ptp.MessageAnnounce`,
`ptp.MessageDelayResp`; `other` stands for any further numeric type). -/
inductive MsgType
  | sync
  | followUp
  | announce
  | delayResp
  | other (n : Nat)
  deriving DecidableEq, Repr

/-- Configured timestamping mode (`ptp.HWTIMESTAMP`, `ptp.SWTIMESTAMP`;
`unrecognized` stands for any other string value of `TimestampType`). -/
inductive TimestampType
  | hw
  | sw
  | unrecognized (n : Nat)
  deriving DecidableEq, Repr

/-- Worker configuration fields read by `sendWorker.Start`
(`s.config.TimestampType`, `s.config.UTCOffset`). -/
structure Config where
  timestampType : TimestampType
  utcOffset : Int
  deriving DecidableEq, Repr

/-- A subscription-client job (`SubscriptionClient` fields used by the
worker): message type, mutable sequence number, event peer address
`eclisa`, general peer address `gclisa`, precomputed delay-response
payload `delayRespP`. Addresses and payloads are abstracted to ids. -/
structure SubscriptionClient where
  subscriptionType : MsgType
  sequenceID : Nat
  eclisa : Nat
  gclisa : Nat
  delayRespP : Nat
  deriving DecidableEq, Repr

/-- Sync message value. Modelled from the spec: the builder
`c.syncPacket()` is external to the worker file; per the client/job
contract it is `buildSync(seq)` for the client's current sequence number. -/
structure SyncPacket where
  sequenceID : Nat
  deriving DecidableEq, Repr

/-- Follow-Up message value carrying the precise origin timestamp.
Modelled from the spec: the builder `c.followupPacket(ts)` is external;
per the client/job contract it is `buildFollowUp(seq, originTimestamp)`. -/
structure FollowupPacket where
  sequenceID : Nat
  preciseOriginTimestamp : Int
  deriving DecidableEq, Repr

/-- Announce message value. Modelled from the spec: the builder
`c.announcePacket()` is external; it is `buildAnnounce(seq)`. -/
structure AnnouncePacket where
  sequenceID : Nat
  deriving DecidableEq, Repr

/-- Modelled from the spec: `buildSync(seq)` for the client's current
sequence number. -/
def SubscriptionClient.syncPacket (c : SubscriptionClient) : SyncPacket :=
  ⟨c.sequenceID⟩

/-- Modelled from the spec: `buildFollowUp(seq, originTimestamp)` with the
client's current sequence number and the given precise origin timestamp. -/
def SubscriptionClient.followupPacket (c : SubscriptionClient) (ts : Int) :
    FollowupPacket :=
  ⟨c.sequenceID, ts⟩

/-- Modelled from the spec: `buildAnnounce(seq)`. -/
def SubscriptionClient.announcePacket (c : SubscriptionClient) : AnnouncePacket :=
  ⟨c.sequenceID⟩

/-- A serialized datagram, at message granularity. -/
inductive Wire
  | syncMsg (p : SyncPacket)
  | followupMsg (p : FollowupPacket)
  | announceMsg (p : AnnouncePacket)
  | delayRespMsg (payload : Nat)
  deriving DecidableEq, Repr

/-- The two socket descriptors owned by the worker: `eFd` (event socket)
and `gFd` (general socket). -/
inductive Fd
  | event
  | general
  deriving DecidableEq, Repr

/-- Observable actions of the worker: `unix.Sendto` calls that succeeded,
and stats-sink calls (`IncTX`, `SetMaxTXTSAttempts`, `SetMaxWorkerLoad`,
`SetMaxWorkerQueue`). -/
inductive Effect
  | sent (fd : Fd) (addr : Nat) (msg : Wire)
  | incTX (t : MsgType)
  | setMaxTXTSAttempts (attempts : Nat)
  | setMaxWorkerLoad (load : Int)
  | setMaxWorkerQueue (depth : Nat)
  deriving DecidableEq, Repr

/-- Outcomes of the external fallible calls made while processing one job:
`ptp.BytesTo` serializations, `unix.Sendto` sends, and the data feeding
timestamp retrieval (`txFound i` says whether retrieval attempt `i`,
zero-based, finds a matching timestamp; `txTS` is the timestamp found). -/
structure JobEnv where
  bytesToSyncOk : Bool
  sendSyncOk : Bool
  txFound : Nat → Bool
  txTS : Int
  bytesToFollowupOk : Bool
  sendFollowupOk : Bool
  bytesToAnnounceOk : Bool
  sendAnnounceOk : Bool
  bytesToDelayRespOk : Bool
  sendDelayRespOk : Bool

/-- Modelled from the spec: the body of the bounded TX-timestamp retrieval
loop of `ptp.ReadTXtimestampBuf` (not under `src/`). `fuel` is the number
of attempts remaining, `attempts` the number already made. The loop stops
successfully at the first matching attempt, returning the timestamp and
the attempt count; once the bound is exhausted it fails, having counted
every attempt. -/
def readTXgo (found : Nat → Bool) (ts : Int) :
    Nat → Nat → Int × Nat × Bool
  | 0, attempts => (0, attempts, false)
  | fuel + 1, attempts =>
      if found attempts then (ts, attempts + 1, true)
      else readTXgo found ts fuel (attempts + 1)

/-- Modelled from the spec: `ptp.ReadTXtimestampBuf` (not under `src/`) —
a bounded number of read attempts against the socket error queue,
returning `(timestamp, attemptCount, ok)`; on exhaustion the attempt
count equals the bound. -/
def readTXtimestampBuf (found : Nat → Bool) (ts : Int) (bound : Nat) :
    Int × Nat × Bool :=
  readTXgo found ts bound 0

/-- The `ptp.MessageSync` branch of the worker's job loop
(`worker.go` lines 93-137 plus the end-of-job lines 178-180).
Returns the (possibly updated) client, the effect trace of the job, and
whether the worker keeps running. Every failure is a `continue` in the
source: it skips the rest of the branch including the end-of-job
bookkeeping, and the worker moves to the next job. -/
def syncJob (cfg : Config) (txBound : Nat) (env : JobEnv) (qlen : Nat)
    (load : Int) (c : SubscriptionClient) :
    SubscriptionClient × List Effect × Bool :=
  let sync := c.syncPacket
  if env.bytesToSyncOk = false then (c, [], true)
  else if env.sendSyncOk = false then (c, [], true)
  else
    let r := readTXtimestampBuf env.txFound env.txTS txBound
    let pre := [Effect.sent Fd.event c.eclisa (Wire.syncMsg sync),
                Effect.incTX MsgType.sync,
                Effect.setMaxTXTSAttempts r.2.1]
    if r.2.2 = false then (c, pre, true)
    else
      let txTS := if cfg.timestampType ≠ TimestampType.hw
                  then r.1 + cfg.utcOffset else r.1
      let followup := c.followupPacket txTS
      if env.bytesToFollowupOk = false then (c, pre, true)
      else if env.sendFollowupOk = false then (c, pre, true)
      else
        ({c with sequenceID := c.sequenceID + 1},
         pre ++ [Effect.sent Fd.general c.gclisa (Wire.followupMsg followup),
                 Effect.incTX MsgType.followUp,
                 Effect.setMaxWorkerLoad load,
                 Effect.setMaxWorkerQueue qlen],
         true)

/-- The `ptp.MessageAnnounce` branch (`worker.go` lines 138-154 plus the
end-of-job lines 178-180). -/
def announceJob (env : JobEnv) (qlen : Nat) (load : Int)
    (c : SubscriptionClient) : SubscriptionClient × List Effect × Bool :=
  if env.bytesToAnnounceOk = false then (c, [], true)
  else if env.sendAnnounceOk = false then (c, [], true)
  else
    ({c with sequenceID := c.sequenceID + 1},
     [Effect.sent Fd.general c.gclisa (Wire.announceMsg c.announcePacket),
      Effect.incTX MsgType.announce,
      Effect.setMaxWorkerLoad load,
      Effect.setMaxWorkerQueue qlen],
     true)

/-- The `ptp.MessageDelayResp` branch (`worker.go` lines 156-171 plus the
end-of-job lines 178-180). A send failure is a `return` in the source:
the worker stops (third component `false`), with no bookkeeping. -/
def delayRespJob (env : JobEnv) (qlen : Nat) (load : Int)
    (c : SubscriptionClient) : SubscriptionClient × List Effect × Bool :=
  if env.bytesToDelayRespOk = false then (c, [], true)
  else if env.sendDelayRespOk = false then (c, [], false)
  else
    ({c with sequenceID := c.sequenceID + 1},
     [Effect.sent Fd.general c.gclisa (Wire.delayRespMsg c.delayRespP),
      Effect.incTX MsgType.delayResp,
      Effect.setMaxWorkerLoad load,
      Effect.setMaxWorkerQueue qlen],
     true)

/-- One iteration of the worker's job loop (`worker.go` lines 89-181):
dispatch on the job's message type; an unknown type is logged and skipped
(`continue`) with no effect. -/
def processJob (cfg : Config) (txBound : Nat) (env : JobEnv) (qlen : Nat)
    (load : Int) (c : SubscriptionClient) :
    SubscriptionClient × List Effect × Bool :=
  match c.subscriptionType with
  | MsgType.sync => syncJob cfg txBound env qlen load c
  | MsgType.announce => announceJob env qlen load c
  | MsgType.delayResp => delayRespJob env qlen load c
  | _ => (c, [], true)

/-- Whether a job runs to completion: every serialization, send and (for
Sync) timestamp-retrieval step succeeds. In the source this is exactly the
condition under which control falls out of the `switch` to the end-of-job
lines 178-180 instead of hitting a `continue` or `return`. -/
def jobSucceeded (txBound : Nat) (env : JobEnv)
    (c : SubscriptionClient) : Bool :=
  match c.subscriptionType with
  | MsgType.sync =>
      env.bytesToSyncOk && env.sendSyncOk
        && (readTXtimestampBuf env.txFound env.txTS txBound).2.2
        && env.bytesToFollowupOk && env.sendFollowupOk
  | MsgType.announce => env.bytesToAnnounceOk && env.sendAnnounceOk
  | MsgType.delayResp => env.bytesToDelayRespOk && env.sendDelayRespOk
  | _ => false

/-- The worker's job loop over a queue, modelled as the list of jobs the
channel would deliver, each with its environment. Returns the full effect
trace and the post-states of the clients whose jobs were processed
(a `return` inside a job stops consumption of the rest of the queue).
The queue depth reported at the end of a job is the number of jobs still
pending (`len(s.queue)`), and `load` is the worker's load counter. -/
def runWorker (cfg : Config) (txBound : Nat) (load : Int) :
    List (SubscriptionClient × JobEnv) →
    List Effect × List SubscriptionClient
  | [] => ([], [])
  | (c, env) :: rest =>
      let step := processJob cfg txBound env rest.length load c
      if step.2.2 then
        let tail := runWorker cfg txBound load rest
        (step.2.1 ++ tail.1, step.1 :: tail.2)
      else
        (step.2.1, [step.1])

/-- Lifecycle events of the worker's two sockets (`econn`, `gconn`). -/
inductive SockEvent
  | openedEvent
  | closedEvent
  | openedGeneral
  | closedGeneral
  deriving DecidableEq, Repr

/-- Outcomes of the fallible setup calls in `sendWorker.Start`
(lines 38-75): the two `net.ListenUDP` binds, the two `ptp.ConnFd` calls,
and the timestamp-enablement calls. -/
structure SetupEnv where
  bindEventOk : Bool
  connFdEventOk : Bool
  enableHWOk : Bool
  enableSWOk : Bool
  bindGeneralOk : Bool
  connFdGeneralOk : Bool
  deriving DecidableEq, Repr

/-- Result of running `sendWorker.Start`: either the process exited via
`log.Fatalf` during setup (`fatalExit`, carrying the socket events that
had happened — `log.Fatalf` calls `os.Exit`, which does not run deferred
`Close` calls), or setup succeeded, the job loop ran to queue closure,
and the deferred closes ran in LIFO order (`completed`). -/
inductive StartOutcome
  | fatalExit (socks : List SockEvent)
  | completed (socks : List SockEvent) (effects : List Effect)
      (clients : List SubscriptionClient)
  deriving Repr

/-- `sendWorker.Start` (lines 38-181): setup with fatal error handling,
then the job loop, then the deferred socket closes. -/
def start (cfg : Config) (txBound : Nat) (load : Int) (senv : SetupEnv)
    (jobs : List (SubscriptionClient × JobEnv)) : StartOutcome :=
  if senv.bindEventOk = false then StartOutcome.fatalExit []
  else if senv.connFdEventOk = false then
    StartOutcome.fatalExit [SockEvent.openedEvent]
  else
    let enabled : Bool :=
      match cfg.timestampType with
      | TimestampType.hw => senv.enableHWOk
      | TimestampType.sw => senv.enableSWOk
      | TimestampType.unrecognized _ => false
    if enabled = false then StartOutcome.fatalExit [SockEvent.openedEvent]
    else if senv.bindGeneralOk = false then
      StartOutcome.fatalExit [SockEvent.openedEvent]
    else if senv.connFdGeneralOk = false then
      StartOutcome.fatalExit [SockEvent.openedEvent, SockEvent.openedGeneral]
    else
      let run := runWorker cfg txBound load jobs
      StartOutcome.completed
        [SockEvent.openedEvent, SockEvent.openedGeneral,
         SockEvent.closedGeneral, SockEvent.closedEvent]
        run.1 run.2

/-- Whether `Start` aborted during setup. -/
def StartOutcome.isFatal : StartOutcome → Bool
  | StartOutcome.fatalExit _ => true
  | StartOutcome.completed _ _ _ => false

/-- Socket events of a `Start` outcome. -/
def StartOutcome.socks : StartOutcome → List SockEvent
  | StartOutcome.fatalExit s => s
  | StartOutcome.completed s _ _ => s

/-- Worker effects of a `Start` outcome (none on a fatal setup exit). -/
def StartOutcome.effects : StartOutcome → List Effect
  | StartOutcome.fatalExit _ => []
  | StartOutcome.completed _ e _ => e

/-- Clients processed by a `Start` outcome (none on a fatal setup exit). -/
def StartOutcome.clients : StartOutcome → List SubscriptionClient
  | StartOutcome.fatalExit _ => []
  | StartOutcome.completed _ _ cs => cs

/-! ### Concrete fixtures used by witnesses and counterexamples -/

/-- Hardware-timestamping configuration with zero offset. -/
def cfgHW : Config := ⟨TimestampType.hw, 0⟩

/-- Software-timestamping configuration with a 37 (ms) correction offset. -/
def cfgSW37 : Config := ⟨TimestampType.sw, 37⟩

/-- A Sync-subscription client at sequence 41. -/
def clientSync41 : SubscriptionClient :=
  ⟨MsgType.sync, 41, 5319, 5320, 0⟩

/-- An Announce-subscription client. -/
def clientAnnounce : SubscriptionClient :=
  ⟨MsgType.announce, 10, 6319, 6320, 0⟩

/-- A DelayResp-subscription client. -/
def clientDelayResp : SubscriptionClient :=
  ⟨MsgType.delayResp, 20, 7319, 7320, 99⟩

/-- A client with an unrecognized subscription type. -/
def clientUnknown : SubscriptionClient :=
  ⟨MsgType.other 55, 30, 8319, 8320, 0⟩

/-- Every external call succeeds; retrieval finds the timestamp 1000 at
the first attempt. -/
def allOkEnv : JobEnv :=
  { bytesToSyncOk := true
    sendSyncOk := true
    txFound := fun _ => true
    txTS := 1000
    bytesToFollowupOk := true
    sendFollowupOk := true
    bytesToAnnounceOk := true
    sendAnnounceOk := true
    bytesToDelayRespOk := true
    sendDelayRespOk := true }

/-- Like `allOkEnv` but the Sync `Sendto` fails. -/
def envSyncSendFail : JobEnv := { allOkEnv with sendSyncOk := false }

/-- Like `allOkEnv` but no retrieval attempt ever finds a timestamp. -/
def envNoTS : JobEnv := { allOkEnv with txFound := fun _ => false }

/-- Like `allOkEnv` but the DelayResp `Sendto` fails. -/
def envDelayRespSendFail : JobEnv := { allOkEnv with sendDelayRespOk := false }

/-- Every setup call succeeds. -/
def senvAllOk : SetupEnv := ⟨true, true, true, true, true, true⟩

/-- Setup where enabling hardware timestamps fails. -/
def senvEnableHWFail : SetupEnv := ⟨true, true, false, true, true, true⟩

/-- Setup where the event-socket bind fails. -/
def senvBindEventFail : SetupEnv := ⟨false, true, true, true, true, true⟩

/-! ### Helper lemmas -/

/-- If no attempt in the remaining fuel finds a timestamp, the retrieval
loop fails having used all attempts. -/
theorem readTXgo_exhausted (found : Nat → Bool) (ts : Int) :
    ∀ fuel start, (∀ i, start ≤ i → i < start + fuel → found i = false) →
      readTXgo found ts fuel start = (0, start + fuel, false) := by
  intro fuel
  induction fuel with
  | zero => intro start _; simp [readTXgo]
  | succ n ih =>
      intro start h
      have h0 : found start = false := h start (Nat.le_refl start) (by omega)
      have hrec := ih (start + 1) (fun i h1 h2 => h i (by omega) (by omega))
      have harith : start + 1 + n = start + (n + 1) := by omega
      simp only [readTXgo, h0, Bool.false_eq_true, if_false, hrec, harith]

/-- On exhaustion (no attempt below the bound matches), retrieval returns
failure with the attempt count equal to the bound. -/
theorem readTXtimestampBuf_exhausted (found : Nat → Bool) (ts : Int)
    (bound : Nat) (h : ∀ i, i < bound → found i = false) :
    readTXtimestampBuf found ts bound = (0, bound, false) := by
  have := readTXgo_exhausted found ts bound 0 (fun i _ h2 => h i (by omega))
  simpa [readTXtimestampBuf] using this

/-- A fatal `Start` outcome has no worker effects and no processed client. -/
theorem StartOutcome.isFatal_empty (o : StartOutcome)
    (h : o.isFatal = true) : o.effects = [] ∧ o.clients = [] := by
  cases o with
  | fatalExit s => exact ⟨rfl, rfl⟩
  | completed s e c => simp [StartOutcome.isFatal] at h

/-! ### C1 -/

/-- C1 (counterexample): the claim that the sequence number advances and
load/queue stats are reported for every non-skipped job "including jobs
where the build, send, or timestamp-retrieval step failed" is false: a
Sync job whose `Sendto` fails hits `continue`, which skips the end-of-job
lines 178-180, so the sequence number stays at 41 and the job's effect
trace is empty (no load or queue-depth report). -/
theorem bookkeeping_on_failed_job_refuted :
    (processJob cfgHW 3 envSyncSendFail 0 7 clientSync41).1.sequenceID
        = clientSync41.sequenceID
      ∧ (processJob cfgHW 3 envSyncSendFail 0 7 clientSync41).2.1 = [] := by
  decide

/-- C1 (amended): the sequence number advances by exactly 1, and the
worker load and queue depth are reported to the stats sink, exactly for
the jobs that run every step to completion; any build, send or
timestamp-retrieval failure (and any skipped/unrecognized type) leaves
the sequence number unchanged and reports neither stat. -/
theorem seq_advance_and_stats_iff_job_success (cfg : Config) (b : Nat)
    (env : JobEnv) (q : Nat) (l : Int) (c : SubscriptionClient) :
    (processJob cfg b env q l c).1.sequenceID
      = (if jobSucceeded b env c then c.sequenceID + 1 else c.sequenceID)
    ∧ (Effect.setMaxWorkerLoad l ∈ (processJob cfg b env q l c).2.1
        ↔ jobSucceeded b env c = true)
    ∧ (Effect.setMaxWorkerQueue q ∈ (processJob cfg b env q l c).2.1
        ↔ jobSucceeded b env c = true) := by
  cases hst : c.subscriptionType with
  | sync =>
      simp only [processJob, jobSucceeded, hst, syncJob]
      cases hb : env.bytesToSyncOk <;>
        cases hs : env.sendSyncOk <;>
          cases hr : (readTXtimestampBuf env.txFound env.txTS b).2.2 <;>
            cases hf : env.bytesToFollowupOk <;>
              cases hg : env.sendFollowupOk <;>
                simp_all
  | announce =>
      simp only [processJob, jobSucceeded, hst, announceJob]
      cases hb : env.bytesToAnnounceOk <;>
        cases hs : env.sendAnnounceOk <;> simp_all
  | delayResp =>
      simp only [processJob, jobSucceeded, hst, delayRespJob]
      cases hb : env.bytesToDelayRespOk <;>
        cases hs : env.sendDelayRespOk <;> simp_all
  | followUp => simp [processJob, jobSucceeded, hst]
  | other n => simp [processJob, jobSucceeded, hst]

/-! ### C6 -/

/-- C6: a job whose message type is not Sync, Announce or DelayResp is
skipped with no bookkeeping side effect: the client (in particular its
sequence number) is unchanged, the effect trace is empty (no transmit
count, load or queue-depth stat), and the worker keeps running. -/
theorem unknown_type_skipped (cfg : Config) (b : Nat) (env : JobEnv)
    (q : Nat) (l : Int) (c : SubscriptionClient)
    (h1 : c.subscriptionType ≠ MsgType.sync)
    (h2 : c.subscriptionType ≠ MsgType.announce)
    (h3 : c.subscriptionType ≠ MsgType.delayResp) :
    processJob cfg b env q l c = (c, [], true) := by
  cases hst : c.subscriptionType <;> simp_all [processJob]

/-- C6 witness: a concrete job with unrecognized type 55 is skipped. -/
theorem unknown_type_skipped_witness :
    processJob cfgHW 3 allOkEnv 0 7 clientUnknown = (clientUnknown, [], true) :=
  unknown_type_skipped cfgHW 3 allOkEnv 0 7 clientUnknown
    (by decide) (by decide) (by decide)

/-! ### Sync-path helper -/

/-- Effect trace of a Sync job in which every step succeeds: Sync sent on
the event socket, Sync transmit count, retrieval attempts, Follow-Up sent
on the general socket with the retrieved timestamp (offset-corrected
unless hardware mode), Follow-Up transmit count, then the end-of-job
load and queue-depth reports. -/
theorem syncJob_success_effects (cfg : Config) (b : Nat) (env : JobEnv)
    (q : Nat) (l : Int) (c : SubscriptionClient)
    (hb : env.bytesToSyncOk = true) (hs : env.sendSyncOk = true)
    (hr : (readTXtimestampBuf env.txFound env.txTS b).2.2 = true)
    (hf : env.bytesToFollowupOk = true) (hg : env.sendFollowupOk = true) :
    (syncJob cfg b env q l c).2.1 =
      [Effect.sent Fd.event c.eclisa (Wire.syncMsg ⟨c.sequenceID⟩),
       Effect.incTX MsgType.sync,
       Effect.setMaxTXTSAttempts (readTXtimestampBuf env.txFound env.txTS b).2.1,
       Effect.sent Fd.general c.gclisa (Wire.followupMsg
         ⟨c.sequenceID,
           if cfg.timestampType ≠ TimestampType.hw
           then (readTXtimestampBuf env.txFound env.txTS b).1 + cfg.utcOffset
           else (readTXtimestampBuf env.txFound env.txTS b).1⟩),
       Effect.incTX MsgType.followUp,
       Effect.setMaxWorkerLoad l,
       Effect.setMaxWorkerQueue q] := by
  simp [syncJob, hb, hs, hr, hf, hg, SubscriptionClient.syncPacket,
    SubscriptionClient.followupPacket]

/-! ### C2 -/

/-- C2: for a Sync job that succeeds through Follow-Up under a mode that
passed startup (Hardware or Software), the transmitted Follow-Up carries
the timestamp returned by the retrieval call, plus the configured
correction offset exactly when the mode is Software; under Hardware mode
no offset is added. -/
theorem followup_origin_timestamp_correct (cfg : Config) (b : Nat)
    (env : JobEnv) (q : Nat) (l : Int) (c : SubscriptionClient)
    (hmode : cfg.timestampType = TimestampType.hw
      ∨ cfg.timestampType = TimestampType.sw)
    (hty : c.subscriptionType = MsgType.sync)
    (hsucc : jobSucceeded b env c = true) :
    Effect.sent Fd.general c.gclisa (Wire.followupMsg
      ⟨c.sequenceID,
        if cfg.timestampType = TimestampType.sw
        then (readTXtimestampBuf env.txFound env.txTS b).1 + cfg.utcOffset
        else (readTXtimestampBuf env.txFound env.txTS b).1⟩)
      ∈ (processJob cfg b env q l c).2.1 := by
  simp only [jobSucceeded, hty, Bool.and_eq_true] at hsucc
  obtain ⟨⟨⟨⟨hb, hs⟩, hr⟩, hf⟩, hg⟩ := hsucc
  simp only [processJob, hty]
  rw [syncJob_success_effects cfg b env q l c hb hs hr hf hg]
  rcases hmode with hm | hm <;> simp [hm]

/-- C2 witness: in Software mode with offset 37, a fully successful Sync
job for a client at sequence 41 sends a Follow-Up to the client's general
address carrying timestamp 1000 + 37. -/
theorem followup_origin_timestamp_correct_witness :
    Effect.sent Fd.general 5320 (Wire.followupMsg ⟨41, 1037⟩)
      ∈ (processJob cfgSW37 3 allOkEnv 0 7 clientSync41).2.1 := by
  have h := followup_origin_timestamp_correct cfgSW37 3 allOkEnv 0 7
    clientSync41 (Or.inr rfl) rfl (by decide)
  simpa [cfgSW37, allOkEnv, clientSync41, readTXtimestampBuf, readTXgo] using h

/-! ### C5 -/

/-- C5: a Sync job that succeeds through Follow-Up sends the Sync datagram
on the event socket to the client's event address and the Follow-Up
datagram on the general socket to the client's general address, both
built with the client's current sequence number. -/
theorem sync_and_followup_endpoints (cfg : Config) (b : Nat) (env : JobEnv)
    (q : Nat) (l : Int) (c : SubscriptionClient)
    (hty : c.subscriptionType = MsgType.sync)
    (hsucc : jobSucceeded b env c = true) :
    Effect.sent Fd.event c.eclisa (Wire.syncMsg ⟨c.sequenceID⟩)
        ∈ (processJob cfg b env q l c).2.1
    ∧ ∃ ts, Effect.sent Fd.general c.gclisa (Wire.followupMsg ⟨c.sequenceID, ts⟩)
        ∈ (processJob cfg b env q l c).2.1 := by
  simp only [jobSucceeded, hty, Bool.and_eq_true] at hsucc
  obtain ⟨⟨⟨⟨hb, hs⟩, hr⟩, hf⟩, hg⟩ := hsucc
  simp only [processJob, hty]
  rw [syncJob_success_effects cfg b env q l c hb hs hr hf hg]
  refine ⟨by simp, ⟨if cfg.timestampType ≠ TimestampType.hw
    then (readTXtimestampBuf env.txFound env.txTS b).1 + cfg.utcOffset
    else (readTXtimestampBuf env.txFound env.txTS b).1, by simp⟩⟩

/-- C5 witness: the concrete scenario of the spec — Hardware mode, client
at sequence 41, everything succeeds: sequence-41 Sync to the event peer,
sequence-41 Follow-Up to the general peer. -/
theorem sync_and_followup_endpoints_witness :
    Effect.sent Fd.event 5319 (Wire.syncMsg ⟨41⟩)
        ∈ (processJob cfgHW 3 allOkEnv 0 7 clientSync41).2.1
    ∧ ∃ ts, Effect.sent Fd.general 5320 (Wire.followupMsg ⟨41, ts⟩)
        ∈ (processJob cfgHW 3 allOkEnv 0 7 clientSync41).2.1 :=
  sync_and_followup_endpoints cfgHW 3 allOkEnv 0 7 clientSync41 rfl (by decide)

/-! ### C3 -/

/-- C3: on the Sync path, a failed Sync send never leads to a Follow-Up
transmission, and a timestamp-retrieval exhaustion (no attempt below the
bound matches) never leads to a Follow-Up transmission; any attempt count
reported on an exhausted job equals the bound, and when the retrieval was
actually reached (serialize and send succeeded) the bound is reported. -/
theorem sync_failures_no_followup (cfg : Config) (b : Nat) (env : JobEnv)
    (q : Nat) (l : Int) (c : SubscriptionClient)
    (hty : c.subscriptionType = MsgType.sync) :
    (env.sendSyncOk = false →
      ∀ fd a p, Effect.sent fd a (Wire.followupMsg p)
        ∉ (processJob cfg b env q l c).2.1)
    ∧ ((∀ i, i < b → env.txFound i = false) →
        (∀ fd a p, Effect.sent fd a (Wire.followupMsg p)
          ∉ (processJob cfg b env q l c).2.1)
        ∧ (∀ k, Effect.setMaxTXTSAttempts k ∈ (processJob cfg b env q l c).2.1
            → k = b)
        ∧ (env.bytesToSyncOk = true → env.sendSyncOk = true →
            Effect.setMaxTXTSAttempts b ∈ (processJob cfg b env q l c).2.1)) := by
  simp only [processJob, hty]
  constructor
  · intro hs fd a p
    cases hb : env.bytesToSyncOk <;> simp [syncJob, hb, hs]
  · intro hex
    have hr := readTXtimestampBuf_exhausted env.txFound env.txTS b hex
    refine ⟨fun fd a p => ?_, fun k => ?_, fun hb hs => ?_⟩
    · cases hb : env.bytesToSyncOk <;> cases hs : env.sendSyncOk <;>
        simp [syncJob, hb, hs, hr]
    · cases hb : env.bytesToSyncOk <;> cases hs : env.sendSyncOk <;>
        simp [syncJob, hb, hs, hr]
    · simp [syncJob, hb, hs, hr]

/-- C3 witness: with bound 3 and a retrieval that never matches, the job
reports attempt count 3 and sends no Follow-Up to the general peer. -/
theorem sync_failures_no_followup_witness :
    Effect.setMaxTXTSAttempts 3 ∈ (processJob cfgHW 3 envNoTS 0 7 clientSync41).2.1
    ∧ Effect.sent Fd.general 5320 (Wire.followupMsg ⟨41, 1000⟩)
        ∉ (processJob cfgHW 3 envNoTS 0 7 clientSync41).2.1 := by
  have h := sync_failures_no_followup cfgHW 3 envNoTS 0 7 clientSync41 rfl
  have hex : ∀ i, i < 3 → envNoTS.txFound i = false := fun i _ => rfl
  exact ⟨(h.2 hex).2.2 rfl rfl, (h.2 hex).1 Fd.general 5320 ⟨41, 1000⟩⟩

/-! ### C4 -/

/-- C4: a DelayResp job whose send fails makes the worker return: the
run over the queue stops with that job (empty effect trace for it, no
subsequent job processed). A Sync or Announce send failure only abandons
the current job: the run continues with the rest of the queue. -/
theorem delayresp_failure_stops_worker (cfg : Config) (b : Nat) (l : Int)
    (c : SubscriptionClient) (env : JobEnv)
    (rest : List (SubscriptionClient × JobEnv)) :
    (c.subscriptionType = MsgType.delayResp → env.bytesToDelayRespOk = true →
      env.sendDelayRespOk = false →
      runWorker cfg b l ((c, env) :: rest) = ([], [c]))
    ∧ ((c.subscriptionType = MsgType.sync ∧ env.sendSyncOk = false)
        ∨ (c.subscriptionType = MsgType.announce ∧ env.sendAnnounceOk = false) →
      runWorker cfg b l ((c, env) :: rest)
        = ((runWorker cfg b l rest).1, c :: (runWorker cfg b l rest).2)) := by
  constructor
  · intro hty hb hs
    simp [runWorker, processJob, hty, delayRespJob, hb, hs]
  · rintro (⟨hty, hs⟩ | ⟨hty, hs⟩)
    · cases hb : env.bytesToSyncOk <;>
        simp [runWorker, processJob, hty, syncJob, hb, hs]
    · cases hb : env.bytesToAnnounceOk <;>
        simp [runWorker, processJob, hty, announceJob, hb, hs]

/-- C4 witness: a DelayResp job with a failing send, followed by a
queued Sync job that would fully succeed: the run stops at the first job
with no effects; the Sync job is never processed. -/
theorem delayresp_failure_stops_worker_witness :
    runWorker cfgHW 3 7
        [(clientDelayResp, envDelayRespSendFail), (clientSync41, allOkEnv)]
      = ([], [clientDelayResp]) :=
  (delayresp_failure_stops_worker cfgHW 3 7 clientDelayResp
      envDelayRespSendFail [(clientSync41, allOkEnv)]).1 rfl rfl rfl

/-! ### C7 -/

/-- C7: an event-socket bind failure, a timestamp-enablement failure for
the configured mode, an unrecognized timestamp mode, or a general-socket
bind failure makes worker startup abort: the outcome is fatal and no job
is dequeued or processed (no effects, no processed clients). -/
theorem fatal_setup_aborts (cfg : Config) (b : Nat) (l : Int)
    (senv : SetupEnv) (jobs : List (SubscriptionClient × JobEnv))
    (h : senv.bindEventOk = false
      ∨ (cfg.timestampType = TimestampType.hw ∧ senv.enableHWOk = false)
      ∨ (cfg.timestampType = TimestampType.sw ∧ senv.enableSWOk = false)
      ∨ (∃ n, cfg.timestampType = TimestampType.unrecognized n)
      ∨ senv.bindGeneralOk = false) :
    (start cfg b l senv jobs).isFatal = true
    ∧ (start cfg b l senv jobs).effects = []
    ∧ (start cfg b l senv jobs).clients = [] := by
  have hf : (start cfg b l senv jobs).isFatal = true := by
    rcases h with h | ⟨hm, he⟩ | ⟨hm, he⟩ | ⟨n, hm⟩ | h
    · simp [start, h, StartOutcome.isFatal]
    · cases hb : senv.bindEventOk <;> cases hc : senv.connFdEventOk <;>
        simp [start, hb, hc, hm, he, StartOutcome.isFatal]
    · cases hb : senv.bindEventOk <;> cases hc : senv.connFdEventOk <;>
        simp [start, hb, hc, hm, he, StartOutcome.isFatal]
    · cases hb : senv.bindEventOk <;> cases hc : senv.connFdEventOk <;>
        simp [start, hb, hc, hm, StartOutcome.isFatal]
    · cases hm : cfg.timestampType <;> cases hb : senv.bindEventOk <;>
        cases hc : senv.connFdEventOk <;> cases hhw : senv.enableHWOk <;>
        cases hsw : senv.enableSWOk <;>
        simp [start, hm, hb, hc, hhw, hsw, h, StartOutcome.isFatal]
  exact ⟨hf, (StartOutcome.isFatal_empty _ hf).1,
    (StartOutcome.isFatal_empty _ hf).2⟩

/-- C7 witness: an event-socket bind failure with a queued job — the
startup aborts before it could be processed. -/
theorem fatal_setup_aborts_witness :
    (start cfgHW 3 7 senvBindEventFail [(clientSync41, allOkEnv)]).isFatal = true
    ∧ (start cfgHW 3 7 senvBindEventFail [(clientSync41, allOkEnv)]).effects = []
    ∧ (start cfgHW 3 7 senvBindEventFail [(clientSync41, allOkEnv)]).clients = [] :=
  fatal_setup_aborts cfgHW 3 7 senvBindEventFail [(clientSync41, allOkEnv)]
    (Or.inl rfl)

/-! ### C8 -/

/-- C8 (counterexample): the claim that every exit path, including the
fatal-setup paths, closes every socket the worker opened is false:
`log.Fatalf` calls `os.Exit`, which does not run deferred `Close` calls.
Concretely, when enabling hardware timestamps fails, the event socket has
been opened but the fatal exit leaves it unclosed. -/
theorem sockets_closed_on_fatal_refuted :
    (start cfgHW 3 7 senvEnableHWFail []).isFatal = true
    ∧ SockEvent.openedEvent ∈ (start cfgHW 3 7 senvEnableHWFail []).socks
    ∧ SockEvent.closedEvent ∉ (start cfgHW 3 7 senvEnableHWFail []).socks := by
  decide

/-- C8 (amended): on the normal exit path — setup succeeded and the job
loop ran to queue closure — the deferred closes run in LIFO order and
both endpoints are released; the fatal-setup paths exit the process
without running the deferred closes. -/
theorem sockets_closed_on_normal_exit (cfg : Config) (b : Nat) (l : Int)
    (senv : SetupEnv) (jobs : List (SubscriptionClient × JobEnv))
    (tr : List SockEvent) (effs : List Effect)
    (cs : List SubscriptionClient)
    (h : start cfg b l senv jobs = StartOutcome.completed tr effs cs) :
    SockEvent.closedEvent ∈ tr ∧ SockEvent.closedGeneral ∈ tr
    ∧ tr = [SockEvent.openedEvent, SockEvent.openedGeneral,
            SockEvent.closedGeneral, SockEvent.closedEvent] := by
  cases hb : senv.bindEventOk <;> cases hc : senv.connFdEventOk <;>
    cases hm : cfg.timestampType <;> cases hhw : senv.enableHWOk <;>
    cases hsw : senv.enableSWOk <;> cases hg : senv.bindGeneralOk <;>
    cases hcg : senv.connFdGeneralOk <;>
    simp_all [start]
  all_goals
    obtain ⟨h1, h2, h3⟩ := h
  all_goals
    rw [← h1]
  all_goals
    simp

/-- C8 witness: a fully successful setup over an empty queue produces
exactly the open/open/close/close trace. -/
theorem sockets_closed_on_normal_exit_witness :
    SockEvent.closedEvent ∈ [SockEvent.openedEvent, SockEvent.openedGeneral,
      SockEvent.closedGeneral, SockEvent.closedEvent]
    ∧ SockEvent.closedGeneral ∈ [SockEvent.openedEvent, SockEvent.openedGeneral,
      SockEvent.closedGeneral, SockEvent.closedEvent] := by
  have h := sockets_closed_on_normal_exit cfgHW 3 7 senvAllOk []
    [SockEvent.openedEvent, SockEvent.openedGeneral,
     SockEvent.closedGeneral, SockEvent.closedEvent] [] [] rfl
  exact ⟨h.1, h.2.1⟩

/-! ### C9 -/

/-- In one job's effect trace, every datagram sent on the event
descriptor is a Sync message; every other datagram goes out on the
general descriptor. -/
theorem processJob_sent_shape (cfg : Config) (b : Nat) (env : JobEnv)
    (q : Nat) (l : Int) (c : SubscriptionClient) (fd : Fd) (a : Nat)
    (w : Wire)
    (h : Effect.sent fd a w ∈ (processJob cfg b env q l c).2.1) :
    (fd = Fd.event ∧ ∃ p, w = Wire.syncMsg p) ∨ fd = Fd.general := by
  cases hst : c.subscriptionType
  case sync =>
    simp only [processJob, hst] at h
    cases hb : env.bytesToSyncOk <;> cases hs : env.sendSyncOk <;>
      cases hr : (readTXtimestampBuf env.txFound env.txTS b).2.2 <;>
        cases hf : env.bytesToFollowupOk <;> cases hg : env.sendFollowupOk <;>
          simp [syncJob, hb, hs, hr, hf, hg] at h <;> aesop
  case announce =>
    simp only [processJob, hst] at h
    cases hb : env.bytesToAnnounceOk <;> cases hs : env.sendAnnounceOk <;>
      simp [announceJob, hb, hs] at h <;> aesop
  case delayResp =>
    simp only [processJob, hst] at h
    cases hb : env.bytesToDelayRespOk <;> cases hs : env.sendDelayRespOk <;>
      simp [delayRespJob, hb, hs] at h <;> aesop
  case followUp =>
    simp [processJob, hst] at h
  case other n =>
    simp [processJob, hst] at h

/-- Lifting of `processJob_sent_shape` to a whole run of the worker. -/
theorem runWorker_sent_shape (cfg : Config) (b : Nat) (l : Int) :
    ∀ (jobs : List (SubscriptionClient × JobEnv)) (fd : Fd) (a : Nat)
      (w : Wire),
      Effect.sent fd a w ∈ (runWorker cfg b l jobs).1 →
      (fd = Fd.event ∧ ∃ p, w = Wire.syncMsg p) ∨ fd = Fd.general := by
  intro jobs
  induction jobs with
  | nil => intro fd a w h; simp [runWorker] at h
  | cons j rest ih =>
      obtain ⟨c, env⟩ := j
      intro fd a w h
      cases halive : (processJob cfg b env rest.length l c).2.2 <;>
        simp only [runWorker, halive] at h
      · simp only [Bool.false_eq_true, if_false] at h
        exact processJob_sent_shape cfg b env rest.length l c fd a w h
      · simp only [if_true, List.mem_append] at h
        rcases h with h | h
        · exact processJob_sent_shape cfg b env rest.length l c fd a w h
        · exact ih fd a w h

/-- C9: across a whole run of the worker, the only datagrams sent on the
event descriptor are Sync messages; every Follow-Up, Announce and
Delay-Response datagram is sent on the general descriptor. -/
theorem event_descriptor_only_sync (cfg : Config) (b : Nat) (l : Int)
    (jobs : List (SubscriptionClient × JobEnv)) :
    (∀ a w, Effect.sent Fd.event a w ∈ (runWorker cfg b l jobs).1 →
        ∃ p, w = Wire.syncMsg p)
    ∧ (∀ fd a p, Effect.sent fd a (Wire.followupMsg p)
        ∈ (runWorker cfg b l jobs).1 → fd = Fd.general)
    ∧ (∀ fd a p, Effect.sent fd a (Wire.announceMsg p)
        ∈ (runWorker cfg b l jobs).1 → fd = Fd.general)
    ∧ (∀ fd a n, Effect.sent fd a (Wire.delayRespMsg n)
        ∈ (runWorker cfg b l jobs).1 → fd = Fd.general) := by
  refine ⟨fun a w h => ?_, fun fd a p h => ?_, fun fd a p h => ?_,
    fun fd a n h => ?_⟩
  · rcases runWorker_sent_shape cfg b l jobs Fd.event a w h with ⟨_, hp⟩ | hga
    · exact hp
    · exact absurd hga (by simp)
  · rcases runWorker_sent_shape cfg b l jobs fd a _ h with ⟨_, p', hp⟩ | hga
    · exact absurd hp (by simp)
    · exact hga
  · rcases runWorker_sent_shape cfg b l jobs fd a _ h with ⟨_, p', hp⟩ | hga
    · exact absurd hp (by simp)
    · exact hga
  · rcases runWorker_sent_shape cfg b l jobs fd a _ h with ⟨_, p', hp⟩ | hga
    · exact absurd hp (by simp)
    · exact hga

/-- C9 witness: a one-job run (successful Announce): the Announce
datagram went to the general descriptor. -/
theorem event_descriptor_only_sync_witness :
    Fd.general = Fd.general := by
  have h := (event_descriptor_only_sync cfgHW 3 7
    [(clientAnnounce, allOkEnv)]).2.2.1 Fd.general 6320 ⟨10⟩ (by decide)
  exact h

/-! ### C10 -/

/-- Within one job's effect trace, the Follow-Up transmit-count
increments never outnumber the Sync ones: a Follow-Up increment appears
only in the fully successful Sync branch, which also contains a Sync
increment. -/
theorem processJob_count_followup_le_sync (cfg : Config) (b : Nat)
    (env : JobEnv) (q : Nat) (l : Int) (c : SubscriptionClient) :
    ((processJob cfg b env q l c).2.1.count (Effect.incTX MsgType.followUp))
      ≤ ((processJob cfg b env q l c).2.1.count (Effect.incTX MsgType.sync)) := by
  cases hst : c.subscriptionType
  case sync =>
    simp only [processJob, hst]
    cases hb : env.bytesToSyncOk <;> cases hs : env.sendSyncOk <;>
      cases hr : (readTXtimestampBuf env.txFound env.txTS b).2.2 <;>
        cases hf : env.bytesToFollowupOk <;> cases hg : env.sendFollowupOk <;>
          simp [syncJob, hb, hs, hr, hf, hg, List.count_cons]
  case announce =>
    simp only [processJob, hst]
    cases hb : env.bytesToAnnounceOk <;> cases hs : env.sendAnnounceOk <;>
      simp [announceJob, hb, hs, List.count_cons]
  case delayResp =>
    simp only [processJob, hst]
    cases hb : env.bytesToDelayRespOk <;> cases hs : env.sendDelayRespOk <;>
      simp [delayRespJob, hb, hs, List.count_cons]
  case followUp => simp [processJob, hst]
  case other n => simp [processJob, hst]

/-- C10: across any run of the worker, the number of Follow-Up
transmit-count increments reported to the stats sink never exceeds the
number of Sync transmit-count increments. -/
theorem followup_count_le_sync_count (cfg : Config) (b : Nat) (l : Int)
    (jobs : List (SubscriptionClient × JobEnv)) :
    ((runWorker cfg b l jobs).1.count (Effect.incTX MsgType.followUp))
      ≤ ((runWorker cfg b l jobs).1.count (Effect.incTX MsgType.sync)) := by
  induction jobs with
  | nil => simp [runWorker]
  | cons j rest ih =>
      obtain ⟨c, env⟩ := j
      cases halive : (processJob cfg b env rest.length l c).2.2 <;>
        simp only [runWorker, halive, Bool.false_eq_true, if_false, if_true]
      · exact processJob_count_followup_le_sync cfg b env rest.length l c
      · rw [List.count_append, List.count_append]
        exact Nat.add_le_add
          (processJob_count_followup_le_sync cfg b env rest.length l c) ih
